import Mathlib

/-!
Verification development for the ProductAnalysis server.

Shallow embedding of the Python source under `server/app/`:

* `app/utils/helpers.py`    — slug generation, domain and platform extraction
* `app/services/firecrawl_service.py` — single-URL content extraction
* `app/services/serper_service.py`    — review-URL discovery
* `app/services/gpt_service.py`       — LLM retry loop
* `app/services/storage_service.py`   — persistence operations
* `app/api/v1/products.py`  — analysis pipeline and analyze trigger
* `app/api/v1/compare.py`   — comparison result normalization

External I/O (HTTP, MongoDB) is modelled by explicit inputs: provider
responses are data passed to the embedded functions, and the store is an
explicit state record threaded through each operation.  Timestamps and
logging side channels are not modelled.
-/

namespace ProductAnalysis

/-! ## helpers.py -/

/-- A character allowed in a product slug: `[a-z0-9]` (helpers.py line 17). -/
def isSlugChar (c : Char) : Bool :=
  ( 'a' ≤ c && c ≤ 'z') || ( '0' ≤ c && c ≤ '9')

/-- `re.sub(r'[^a-z0-9]+', '-', s)` on a character list: each maximal run of
non-slug characters becomes a single hyphen.  The boolean flag records whether
the previous character was part of such a run. -/
def subRunsAux : Bool → List Char → List Char
  | _, [] => []
  | inRun, c :: rest =>
    if isSlugChar c then c :: subRunsAux false rest
    else if inRun then subRunsAux true rest
    else '-' :: subRunsAux true rest

/-- `s.strip('-')`: drop hyphens from both ends. -/
def stripHyphens (l : List Char) : List Char :=
  ((l.dropWhile (fun c => c == '-')).reverse.dropWhile (fun c => c == '-')).reverse

/-- `re.sub(r'-+', '-', s)`: collapse adjacent hyphens. -/
def squeezeHyphens : List Char → List Char
  | [] => []
  | [c] => [c]
  | c :: d :: rest =>
    if c == '-' && d == '-' then squeezeHyphens (d :: rest)
    else c :: squeezeHyphens (d :: rest)

/-- helpers.py `generate_product_id`: lowercase, replace runs of non-`[a-z0-9]`
with single hyphens, strip leading/trailing hyphens, collapse repeated hyphens.
`Char.toLower` matches Python `str.lower` on ASCII; non-ASCII letters remain
non-slug characters on both sides. -/
def generate_product_id (product_name : String) : String :=
  let lowered := product_name.data.map Char.toLower
  let subbed := subRunsAux false lowered
  let stripped := stripHyphens subbed
  String.mk (squeezeHyphens stripped)

/-- Suffix of `l` after the first occurrence of `pat`, if `pat` occurs. -/
def afterSubstr (pat : List Char) : List Char → Option (List Char)
  | [] => if pat = [] then some [] else none
  | c :: rest =>
    if pat.isPrefixOf (c :: rest) then some ((c :: rest).drop pat.length)
    else afterSubstr pat rest

/-- `urllib.parse.urlparse(url).netloc` for the URLs this system handles: the
text between `"://"` and the next `/`, `?` or `#`; empty when the URL has no
`"://"` separator (Python then treats the whole string as a path). -/
def netlocOf (url : String) : String :=
  match afterSubstr ( ':' :: '/' :: '/' :: []) url.data with
  | none => ""
  | some rest =>
    String.mk (rest.takeWhile (fun c => c ≠ '/' && c ≠ '?' && c ≠ '#'))

/-- helpers.py `extract_domain`: the URL's netloc with a leading `"www."`
stripped. -/
def extract_domain (url : String) : String :=
  let domain := netlocOf url
  if ( 'w' :: 'w' :: 'w' :: '.' :: []).isPrefixOf domain.data then
    String.mk (domain.data.drop 4)
  else domain

/-- Auxiliary for the substring test: does `needle` occur in the haystack? -/
def containsSubAux (needle : List Char) : List Char → Bool
  | [] => needle.isEmpty
  | c :: rest => needle.isPrefixOf (c :: rest) || containsSubAux needle rest

/-- `key in domain` — substring test. -/
def containsSub (haystack needle : String) : Bool :=
  containsSubAux needle.data haystack.data

/-- helpers.py `platform_map`, in insertion order. -/
def platformMap : List (String × String) :=
  [("amazon", "amazon"), ("flipkart", "flipkart"), ("myntra", "myntra"),
   ("snapdeal", "snapdeal"), ("nykaa", "nykaa"), ("croma", "croma"),
   ("reliance", "reliance digital")]

/-- helpers.py `extract_platform_name`: first platform-map key occurring in the
lowercased domain wins; otherwise the first dot-separated label of the domain,
or `"unknown"` for an empty domain. -/
def extract_platform_name (url : String) : String :=
  let domain := String.mk ((extract_domain url).data.map Char.toLower)
  match platformMap.find? (fun kv => containsSub domain kv.1) with
  | some kv => kv.2
  | none =>
    if domain ≠ "" then String.mk (domain.data.takeWhile (fun c => c ≠ '.'))
    else "unknown"

/-! ## firecrawl_service.py — `FirecrawlService.scrape_url` -/

/-- Result dictionary returned by `scrape_url`.  `metadata` is the provider's
page metadata (a string-keyed dictionary, absent — empty — on failures). -/
structure ScrapeResult where
  url : String
  success : Bool
  error : Option String
  content : String
  domain : String
  platform : String
  metadata : List (String × String)
deriving Repr, DecidableEq

/-- Body of an HTTP response from the extraction provider (the fields
`scrape_url` inspects). -/
structure FirecrawlBody where
  /-- `data.get("success", False)` -/
  success : Bool
  /-- `data.get("error", ...)` / `error_data.get("error", ...)` -/
  errorMsg : Option String
  /-- `data["data"]["markdown"]` when both keys are present -/
  dataMarkdown : Option String
  /-- top-level `data["markdown"]` when present -/
  topMarkdown : Option String
  /-- `data.get("data", {}).get("metadata", {})` -/
  metadata : List (String × String)
deriving Repr, DecidableEq

/-- The outcome of the provider call made inside `scrape_url`. -/
inductive FirecrawlResponse where
  /-- `asyncio.TimeoutError` -/
  | netTimeout
  /-- any other exception while making the request, with `str(e)` -/
  | netError (msg : String)
  /-- an HTTP response with its status code and body -/
  | http (status : Nat) (body : FirecrawlBody)
deriving Repr, DecidableEq

/-- firecrawl_service.py `scrape_url` (lines 30–207), as a function of the URL
and the provider call's outcome. -/
def scrape_url (url : String) (resp : FirecrawlResponse) : ScrapeResult :=
  match resp with
  | .netTimeout =>
    { url := url, success := false, error := some "Timeout", content := ""
      domain := extract_domain url, platform := extract_platform_name url
      metadata := [] }
  | .netError msg =>
    { url := url, success := false, error := some msg, content := ""
      domain := extract_domain url, platform := extract_platform_name url
      metadata := [] }
  | .http status body =>
    if status ≠ 200 then
      let errorText := body.errorMsg.getD ("HTTP " ++ toString status ++ " error")
      { url := url, success := false
        error := some ("HTTP " ++ toString status ++ ": " ++ errorText)
        content := "", domain := extract_domain url
        platform := extract_platform_name url, metadata := [] }
    else if !body.success then
      { url := url, success := false
        error := some ("Firecrawl error: " ++ body.errorMsg.getD "Unknown error")
        content := "", domain := extract_domain url
        platform := extract_platform_name url, metadata := [] }
    else
      let content := match body.dataMarkdown with
        | some m => m
        | none => body.topMarkdown.getD ""
      { url := url, success := true, error := none, content := content
        domain := extract_domain url, platform := extract_platform_name url
        metadata := body.metadata }

/-! ## serper_service.py — `SerperService.search_product_reviews` -/

/-- One entry of the provider's organic result list; `link` is the value of the
`"link"` key when present. -/
structure OrganicResult where
  link : Option String
deriving Repr, DecidableEq

/-- serper_service.py lines 72–94: URL extraction from a successful search
response.  `organic` is `data["organic"]` when the key is present.  The
comprehension takes `organic_results[1:3]` and keeps `result.get("link", "")`
for entries whose `"link"` value is truthy (present and non-empty). -/
def search_product_reviews (organic : Option (List OrganicResult)) : List String :=
  match organic with
  | none => []
  | some results =>
    if results.length > 1 then
      ((results.drop 1).take 2).filterMap (fun r =>
        match r.link with
        | some l => if l ≠ "" then some l else none
        | none => none)
    else []

/-! ## gpt_service.py — `GPTService.generate_response` retry loop -/

/-- The outcome of one HTTP request attempt to the LLM provider. -/
inductive AttemptOutcome where
  /-- HTTP 200 with a non-empty `choices` array; carries the message content -/
  | success (content : String)
  /-- HTTP 200 whose body lacks `choices` (raises `ValueError`) -/
  | badFormat
  /-- a non-200 HTTP status -/
  | httpError (status : Nat)
  /-- `httpx.TimeoutException` -/
  | timeout
  /-- `httpx.RequestError` -/
  | netError
deriving Repr, DecidableEq

/-- The error with which `generate_response` finally raises. -/
inductive GenErr where
  /-- `HTTPException(status_code=status)` from a non-200 provider response -/
  | httpStatus (status : Nat)
  /-- `HTTPException(500, "... timed out after multiple retries")` -/
  | timeoutExhausted
  /-- `HTTPException(500, "... failed after multiple retries ...")` -/
  | netExhausted
  /-- re-raised `ValueError` for a body without `choices` -/
  | invalidFormat
deriving Repr, DecidableEq

/-- What `generate_response` does overall: return content, raise, or fall off
the loop returning `None` (unreachable with `max_retries = 3`). -/
inductive GenOutcome where
  | ok (content : String)
  | err (e : GenErr)
  | noneReturn
deriving Repr, DecidableEq

/-- gpt_service.py lines 300–375, one loop iteration at attempt index `k` with
`remaining` iterations left (`remaining > 1` ⟺ `attempt < max_retries - 1`).
Returns the outcome together with the list of backoff sleeps
(`retry_delay * (attempt + 1)` seconds, `retry_delay = 2`) in order.  A non-200
status in the transient class (5xx or 429) retries via the explicit branch at
lines 331–336; any other status raises `HTTPException` (line 338) which the
catch-all `except Exception` (line 367) also retries with the same backoff. -/
def genAux (outcome : Nat → AttemptOutcome) (k : Nat) : Nat → GenOutcome × List Nat
  | 0 => (.noneReturn, [])
  | remaining + 1 =>
    let wait := 2 * (k + 1)
    let retryWith (final : GenErr) : GenOutcome × List Nat :=
      if remaining ≥ 1 then
        let (res, waits) := genAux outcome (k + 1) remaining
        (res, wait :: waits)
      else (.err final, [])
    match outcome k with
    | .success content => (.ok content, [])
    | .badFormat => retryWith .invalidFormat
    | .httpError status =>
      if status ≥ 500 || status == 429 then retryWith (.httpStatus status)
      else retryWith (.httpStatus status)
    | .timeout => retryWith .timeoutExhausted
    | .netError => retryWith .netExhausted

/-- gpt_service.py `generate_response` with `max_retries = 3`. -/
def generate_response (outcome : Nat → AttemptOutcome) : GenOutcome × List Nat :=
  genAux outcome 0 3

/-! ## storage_service.py -/

/-- A stored Product row (the fields the embedded operations touch). -/
structure Product where
  product_id : String
  product_name : String
  status : String
deriving Repr, DecidableEq

/-- storage_service.py `create_product` over a list-backed product store:
derive the slug, return the existing row if one has that id, otherwise insert
a fresh row with status `"pending"`. -/
def create_product (store : List Product) (product_name : String) :
    Product × List Product :=
  let product_id := generate_product_id product_name
  match store.find? (fun p => p.product_id == product_id) with
  | some existing => (existing, store)
  | none =>
    let product : Product :=
      { product_id := product_id, product_name := product_name, status := "pending" }
    (product, store ++ [product])

/-- An AnalysisResult document, modelled as its field assignment
(field name ↦ stored value).  Timestamps are not modelled. -/
abbrev AnalysisDoc := List (String × String)

/-- `setattr(existing, key, value)` on a document: replace the field if
present, add it otherwise. -/
def setField : AnalysisDoc → String → String → AnalysisDoc
  | [], key, value => [(key, value)]
  | (k, v) :: rest, key, value =>
    if k = key then (k, value) :: rest
    else (k, v) :: setField rest key value

/-- Read a field of a document. -/
def getField : AnalysisDoc → String → Option String
  | [], _ => none
  | (k, v) :: rest, key => if k = key then some v else getField rest key

/-- storage_service.py lines 94–99: `for key, value in analysis_result.items():
setattr(existing, key, value)` — a field-wise write of the payload into the
existing document. -/
def mergeFields (existing : AnalysisDoc) (payload : AnalysisDoc) : AnalysisDoc :=
  payload.foldl (fun acc kv => setField acc kv.1 kv.2) existing

/-- A persisted RawReview row (timestamp omitted). -/
structure RawReviewRow where
  source_url : String
  source_platform : String
  raw_data : String
  firecrawl_metadata : List (String × String)
  domain : String
deriving Repr, DecidableEq

/-- A persisted ProcessingLog row (timestamp omitted; rows are kept in
insertion order, which the store reads back most-recent-first). -/
structure LogRow where
  stage : String
  status : String
  progress : Nat
  current_step : String
  error : Option String
deriving Repr, DecidableEq

/-- The store's state for one product: its status field, its (at most one)
AnalysisResult, its RawReview rows and its ProcessingLog rows. -/
structure PState where
  status : String
  analysis : Option AnalysisDoc
  rawReviews : List RawReviewRow
  logs : List LogRow
deriving Repr, DecidableEq

/-- storage_service.py `update_product_status`. -/
def update_product_status (s : PState) (status : String) : PState :=
  { s with status := status }

/-- storage_service.py `update_processing_status` (lines 162–204): append a
log row; when the row's status is `"completed"` or `"failed"`, also set the
product's status to it. -/
def update_processing_status (s : PState) (stage status : String)
    (progress : Nat) (current_step : String) (error : Option String) : PState :=
  let s' := { s with
    logs := s.logs ++ [{ stage := stage, status := status, progress := progress,
                         current_step := current_step, error := error }] }
  if status = "completed" ∨ status = "failed" then
    { s' with status := status }
  else s'

/-- storage_service.py `save_raw_reviews` (lines 44–78): persist one row per
entry whose `success` flag and `content` are both truthy. -/
def save_raw_reviews (s : PState) (reviews_data : List ScrapeResult) : PState :=
  { s with rawReviews := s.rawReviews ++ reviews_data.filterMap (fun r =>
      if r.success = true ∧ r.content ≠ "" then
        some { source_url := r.url, source_platform := r.platform,
               raw_data := r.content, firecrawl_metadata := r.metadata,
               domain := r.domain }
      else none) }

/-- storage_service.py `save_analysis_results` (lines 80–115): write the
payload's fields into the existing AnalysisResult if one exists (otherwise
insert the payload as a new document), then set the product's status to
`"completed"`. -/
def save_analysis_results (s : PState) (analysis_result : AnalysisDoc) : PState :=
  let analysis' := match s.analysis with
    | some existing => mergeFields existing analysis_result
    | none => analysis_result
  { s with analysis := some analysis', status := "completed" }

/-! ## products.py — pipeline and analyze trigger -/

/-- The pipeline's collaborators, as data: the discovery call's outcome
(`.error` models a raised exception carrying its message), the extractor
(total — `scrape_url` converts its own exceptions into failure results), and
the analyzer (`.error` models a raised exception, e.g. a parse failure). -/
structure PipelineEnv where
  search : Except String (List String)
  scrape : String → ScrapeResult
  analyze : List String → Except String AnalysisDoc

/-- The per-URL scrape progress update (products.py lines 119–127):
`progress = min(20 + int((i / n) * 60), 80)`. -/
def scrapeStepState (n i : Nat) (s : PState) : PState :=
  update_processing_status s "scrape" "in_progress" (min (20 + 60 * i / n) 80)
    ("Scraping URL " ++ toString (i + 1) ++ "/" ++ toString n ++ "...") none

/-- The pre-analysis progress update (products.py lines 153–161):
`progress = min(20 + int(((i + 0.5) / n) * 60), 80)`, over `count` accumulated
reviews. -/
def analyzeStepState (n i count : Nat) (s : PState) : PState :=
  update_processing_status s "analyze" "in_progress"
    (min (20 + (120 * i + 60) / (2 * n)) 80)
    ("Analyzing " ++ toString count ++ " review(s) with AI...") none

/-- One iteration of the URL loop (products.py lines 112–190) at index `i` of
`n` URLs, acting on the state, the accumulated review list and the success /
failure counters.  An analyzer exception is not caught here: it escapes as
`.error` carrying the state reached so far, to be handled by the run-level
handler. -/
def processUrl (env : PipelineEnv) (n i : Nat) (url : String) (s : PState)
    (acc : List String) (succ fails : Nat) :
    Except (String × PState) (PState × List String × Nat × Nat) :=
  if (env.scrape url).success = true ∧ (env.scrape url).content ≠ "" then
    match env.analyze (acc ++ [(env.scrape url).content]) with
    | .error e =>
      .error (e, analyzeStepState n i (acc ++ [(env.scrape url).content]).length
        (save_raw_reviews (scrapeStepState n i s) [env.scrape url]))
    | .ok payload =>
      .ok (save_analysis_results
            (analyzeStepState n i (acc ++ [(env.scrape url).content]).length
              (save_raw_reviews (scrapeStepState n i s) [env.scrape url]))
            payload,
          acc ++ [(env.scrape url).content], succ + 1, fails)
  else
    .ok (scrapeStepState n i s, acc, succ, fails + 1)

/-- The URL loop: `for i, url in enumerate(urls)` starting at index `i`. -/
def runLoop (env : PipelineEnv) (n : Nat) :
    List String → Nat → PState → List String → Nat → Nat →
    Except (String × PState) (PState × List String × Nat × Nat)
  | [], _, s, acc, succ, fails => .ok (s, acc, succ, fails)
  | url :: rest, i, s, acc, succ, fails =>
    match processUrl env n i url s acc succ fails with
    | .error e => .error e
    | .ok (s', acc', succ', fails') => runLoop env n rest (i + 1) s' acc' succ' fails'

/-- The search-stage progress update (products.py lines 63–69). -/
def searchStepState (product_name : String) (s : PState) : PState :=
  update_processing_status s "search" "in_progress" 10
    ("Searching for review URLs for " ++ product_name ++ "...") none

/-- The progress update after discovery succeeds (products.py lines 91–97). -/
def foundUrlsState (k : Nat) (s : PState) : PState :=
  update_processing_status s "scrape" "in_progress" 20
    ("Found " ++ toString k ++ " URLs. Starting to scrape...") none

/-- products.py `analyze_product_pipeline` (lines 36–253): search, iterate the
URLs sequentially, then decide the terminal state.  The run-level `except`
(lines 235–253) converts any escaped exception into a
`stage="analyze", status="failed"` progress row. -/
def analyze_product_pipeline (env : PipelineEnv) (product_name : String)
    (s0 : PState) : PState :=
  match env.search with
  | .error e =>
    update_processing_status (searchStepState product_name s0)
      "analyze" "failed" 0 ("Error: " ++ e) (some e)
  | .ok urls =>
    if urls.isEmpty then
      update_processing_status (searchStepState product_name s0)
        "search" "failed" 0 "No review URLs found"
        (some "No URLs returned from Serper API")
    else
      match runLoop env urls.length urls 0
          (foundUrlsState urls.length (searchStepState product_name s0)) [] 0 0 with
      | .error (e, se) =>
        update_processing_status se "analyze" "failed" 0 ("Error: " ++ e) (some e)
      | .ok (s3, acc, _, _) =>
        if acc.isEmpty then
          update_processing_status s3 "scrape" "failed" 0
            "No review content extracted"
            (some "Failed to extract review content from scraped pages")
        else
          update_processing_status s3 "analyze" "completed" 100
            "Analysis complete!" none

/-- products.py `analyze_product` (lines 281–319), for an existing product:
returns the reported status and message, the store state after the call, and
whether a background pipeline run was scheduled. -/
def analyze_product (s : PState) : (String × String) × PState × Bool :=
  if s.status = "processing" then
    (("processing", "Analysis already in progress"), s, false)
  else if s.status = "completed" then
    (("completed", "Analysis already completed"), s, false)
  else
    (("processing", "Analysis started"), update_product_status s "processing", true)

/-! ## compare.py — output normalization -/

/-- An entry of a list coming back from the LLM: either a plain JSON string or
an object, modelled as its string-valued fields. -/
inductive JEntry where
  | str (s : String)
  | obj (fields : List (String × String))
deriving Repr, DecidableEq

/-- Python `str(dict)` for a string-valued dictionary:
`{'k': 'v', ...}`. -/
def pyReprObj (fields : List (String × String)) : String :=
  "\x7b" ++ String.intercalate ", "
    (fields.map (fun kv => "\x27" ++ kv.1 ++ "\x27: \x27" ++ kv.2 ++ "\x27"))
    ++ "\x7d"

/-- `diff.get("difference", str(diff)) if isinstance(diff, dict) else diff`. -/
def normalizeDiffEntry (e : JEntry) : JEntry :=
  match e with
  | .str s => .str s
  | .obj fields => .str ((getField fields "difference").getD (pyReprObj fields))

/-- compare.py lines 76–83: `key_differences` is rewritten only when the list
is non-empty and its first entry is an object; then every entry is normalized
by `normalizeDiffEntry`. -/
def normalizeKeyDifferences (entries : List JEntry) : List JEntry :=
  match entries with
  | [] => []
  | first :: _ =>
    match first with
    | .obj _ => entries.map normalizeDiffEntry
    | .str _ => entries

/-- `item.get("quote", str(item)) if isinstance(item, dict) else item` — the
per-entry normalization used for `pros_cons` lists and
`feature_comparison.<feature>.quotes`. -/
def normalizeQuoteEntry (e : JEntry) : JEntry :=
  match e with
  | .str s => .str s
  | .obj fields => .str ((getField fields "quote").getD (pyReprObj fields))

/-- compare.py lines 90–97 / 104–109: a quote list is rewritten only when it is
non-empty and its first entry is an object. -/
def normalizeQuoteList (entries : List JEntry) : List JEntry :=
  match entries with
  | [] => []
  | first :: _ =>
    match first with
    | .obj _ => entries.map normalizeQuoteEntry
    | .str _ => entries

/-! ## Store-operation lemmas -/

theorem ups_analysis (s : PState) (stage status : String) (p : Nat)
    (step : String) (e : Option String) :
    (update_processing_status s stage status p step e).analysis = s.analysis := by
  unfold update_processing_status
  split <;> rfl

theorem ups_rawReviews (s : PState) (stage status : String) (p : Nat)
    (step : String) (e : Option String) :
    (update_processing_status s stage status p step e).rawReviews = s.rawReviews := by
  unfold update_processing_status
  split <;> rfl

theorem ups_logs (s : PState) (stage status : String) (p : Nat)
    (step : String) (e : Option String) :
    (update_processing_status s stage status p step e).logs =
      s.logs ++ [{ stage := stage, status := status, progress := p,
                   current_step := step, error := e }] := by
  unfold update_processing_status
  split <;> rfl

theorem ups_status_in_progress (s : PState) (stage : String) (p : Nat)
    (step : String) (e : Option String) :
    (update_processing_status s stage "in_progress" p step e).status = s.status := by
  unfold update_processing_status
  rw [if_neg]
  decide

theorem ups_status_failed (s : PState) (stage : String) (p : Nat)
    (step : String) (e : Option String) :
    (update_processing_status s stage "failed" p step e).status = "failed" := by
  unfold update_processing_status
  rw [if_pos]
  exact Or.inr rfl

theorem ups_status_completed (s : PState) (stage : String) (p : Nat)
    (step : String) (e : Option String) :
    (update_processing_status s stage "completed" p step e).status = "completed" := by
  unfold update_processing_status
  rw [if_pos]
  exact Or.inl rfl

theorem srr_analysis (s : PState) (l : List ScrapeResult) :
    (save_raw_reviews s l).analysis = s.analysis := rfl

theorem srr_status (s : PState) (l : List ScrapeResult) :
    (save_raw_reviews s l).status = s.status := rfl

theorem sar_status (s : PState) (payload : AnalysisDoc) :
    (save_analysis_results s payload).status = "completed" := rfl

theorem sar_analysis (s : PState) (payload : AnalysisDoc) :
    (save_analysis_results s payload).analysis =
      some (match s.analysis with
            | some existing => mergeFields existing payload
            | none => payload) := rfl

theorem sar_rawReviews (s : PState) (payload : AnalysisDoc) :
    (save_analysis_results s payload).rawReviews = s.rawReviews := rfl

/-! ## C3 — analyze-trigger re-entry policy -/

/-- C3: for a product in status `"processing"` or `"completed"` the analyze
trigger is a no-op reporting the current status — the store state is returned
unchanged (so no progress-log row is appended and nothing is modified) and no
background pipeline run is scheduled; for any other status, the product's
status is set to `"processing"` and the pipeline is started. -/
theorem analyze_trigger_reentry_policy (s : PState) :
    (s.status = "processing" →
      analyze_product s = (("processing", "Analysis already in progress"), s, false)) ∧
    (s.status = "completed" →
      analyze_product s = (("completed", "Analysis already completed"), s, false)) ∧
    (s.status ≠ "processing" → s.status ≠ "completed" →
      analyze_product s =
        (("processing", "Analysis started"), { s with status := "processing" }, true)) := by
  refine ⟨fun h => ?_, fun h => ?_, fun h1 h2 => ?_⟩
  · unfold analyze_product
    rw [if_pos h]
  · unfold analyze_product
    rw [if_neg (by rw [h]; decide), if_pos h]
  · unfold analyze_product
    rw [if_neg h1, if_neg h2]
    rfl

/-- Witness for `analyze_trigger_reentry_policy` at concrete states. -/
theorem analyze_trigger_reentry_policy_witness :
    (analyze_product ⟨"processing", none, [], []⟩ =
      (("processing", "Analysis already in progress"), ⟨"processing", none, [], []⟩, false)) ∧
    (analyze_product ⟨"completed", none, [], []⟩ =
      (("completed", "Analysis already completed"), ⟨"completed", none, [], []⟩, false)) ∧
    (analyze_product ⟨"pending", none, [], []⟩ =
      (("processing", "Analysis started"), ⟨"processing", none, [], []⟩, true)) :=
  ⟨(analyze_trigger_reentry_policy ⟨"processing", none, [], []⟩).1 rfl,
   (analyze_trigger_reentry_policy ⟨"completed", none, [], []⟩).2.1 rfl,
   (analyze_trigger_reentry_policy ⟨"pending", none, [], []⟩).2.2 (by decide) (by decide)⟩

/-! ## C10 — names with no alphanumeric characters share the empty slug -/

theorem subRunsAux_all_bad (l : List Char) (h : ∀ c ∈ l, isSlugChar c = false) :
    subRunsAux true l = [] ∧ (l ≠ [] → subRunsAux false l = [ '-']) := by
  induction l with
  | nil => exact ⟨rfl, fun h' => absurd rfl h'⟩
  | cons c rest ih =>
    have hc : isSlugChar c = false := h c (List.mem_cons_self c rest)
    have ihr := ih (fun d hd => h d (List.mem_cons_of_mem c hd))
    constructor
    · unfold subRunsAux
      rw [hc]
      simpa using ihr.1
    · intro _
      unfold subRunsAux
      rw [hc]
      simpa using ihr.1

theorem generate_product_id_empty_of_all_bad (name : String)
    (h : ∀ c ∈ name.data, isSlugChar c.toLower = false) :
    generate_product_id name = "" := by
  unfold generate_product_id
  have hall : ∀ d ∈ name.data.map Char.toLower, isSlugChar d = false := by
    intro d hd
    obtain ⟨c, hc, rfl⟩ := List.mem_map.1 hd
    exact h c hc
  rcases hname : name.data.map Char.toLower with _ | ⟨c, rest⟩
  · rfl
  · have := (subRunsAux_all_bad (c :: rest) (hname ▸ hall)).2 (by simp)
    show String.mk (squeezeHyphens (stripHyphens (subRunsAux false (c :: rest)))) = ""
    rw [this]
    rfl

/-- C10: any non-empty product name with no character in `[a-z0-9]` after
lowercasing slugs to the empty string, so all such names share the product id
`""` and `create_product` resolves them to the same record: creating a second
such product returns the record created for the first and leaves the store
unchanged. -/
theorem empty_slug_collision (n1 n2 : String)
    (hall1 : ∀ c ∈ n1.data, isSlugChar c.toLower = false)
    (hall2 : ∀ c ∈ n2.data, isSlugChar c.toLower = false) :
    generate_product_id n1 = "" ∧ generate_product_id n2 = "" ∧
    (create_product (create_product [] n1).2 n2).1 = (create_product [] n1).1 ∧
    (create_product (create_product [] n1).2 n2).2 = (create_product [] n1).2 := by
  have h1 := generate_product_id_empty_of_all_bad n1 hall1
  have h2 := generate_product_id_empty_of_all_bad n2 hall2
  have hfirst : create_product [] n1 =
      ({ product_id := "", product_name := n1, status := "pending" },
       [{ product_id := "", product_name := n1, status := "pending" }]) := by
    unfold create_product
    rw [h1]
    rfl
  refine ⟨h1, h2, ?_, ?_⟩ <;>
  · rw [hfirst]
    unfold create_product
    rw [h2]
    rfl

/-- Witness for `empty_slug_collision`: the distinct names `"!!!"` and `"?? ?"`
both slug to `""` and resolve to the same stored record. -/
theorem empty_slug_collision_witness :
    generate_product_id "!!!" = "" ∧ generate_product_id "?? ?" = "" ∧
    (create_product (create_product [] "!!!").2 "?? ?").1 = (create_product [] "!!!").1 ∧
    (create_product (create_product [] "!!!").2 "?? ?").2 = (create_product [] "!!!").2 :=
  empty_slug_collision "!!!" "?? ?" (by decide) (by decide)

/-! ## C7 — discovery URL selection -/

/-- C7: discovery returns `[]` whenever the provider yields fewer than two
organic results (or no organic list at all); with at least three organic
results whose entries at zero-based indices 1 and 2 carry (non-empty) links,
it returns exactly those two links in order. -/
theorem serper_url_selection (results : List OrganicResult) (l1 l2 : String) :
    (results.length < 2 → search_product_reviews (some results) = []) ∧
    (search_product_reviews none = []) ∧
    (3 ≤ results.length →
      results.get? 1 = some ⟨some l1⟩ → l1 ≠ "" →
      results.get? 2 = some ⟨some l2⟩ → l2 ≠ "" →
      search_product_reviews (some results) = [l1, l2]) := by
  refine ⟨fun hlen => ?_, rfl, fun hlen h1 hne1 h2 hne2 => ?_⟩
  · simp only [search_product_reviews]
    rw [if_neg (by omega)]
  · rcases results with _ | ⟨a, _ | ⟨b, _ | ⟨c, rest⟩⟩⟩ <;> simp at hlen
    rw [List.get?_eq_getElem?] at h1 h2
    simp only [List.getElem?_cons_succ, List.getElem?_cons_zero] at h1 h2
    cases Option.some.inj h1
    cases Option.some.inj h2
    simp only [search_product_reviews]
    rw [if_pos (by simp)]
    simp [hne1, hne2]

/-- Witness for `serper_url_selection` at concrete result lists. -/
theorem serper_url_selection_witness :
    (search_product_reviews (some [⟨some "a"⟩]) = []) ∧
    (search_product_reviews
      (some [⟨some "a"⟩, ⟨some "b"⟩, ⟨some "c"⟩, ⟨some "d"⟩]) = ["b", "c"]) :=
  ⟨(serper_url_selection [⟨some "a"⟩] "b" "c").1 (by decide),
   (serper_url_selection [⟨some "a"⟩, ⟨some "b"⟩, ⟨some "c"⟩, ⟨some "d"⟩] "b" "c").2.2
     (by decide) (by decide) (by decide) (by decide) (by decide)⟩

/-! ## C5 — LLM retry policy -/

/-- An attempt outcome that does not return content on the spot. -/
def attemptFails (o : AttemptOutcome) : Bool :=
  match o with
  | .success _ => false
  | _ => true

/-- C5 counterexample: an HTTP 404 from the provider — an error class outside
{timeout, 429, 5xx} — is retried twice with backoff sleeps of 2 and 4 seconds
before the `HTTPException` surfaces, rather than surfacing immediately with no
retry: the `HTTPException` raised for it is caught by the loop's catch-all
`except Exception` handler. -/
theorem generate_response_retries_non_transient :
    generate_response (fun _ => .httpError 404) =
      (.err (.httpStatus 404), [2, 4]) := by
  decide

/-- C5 amended: in `GPTService.generate_response` every failing attempt —
transient (timeout, 429, 5xx) and non-transient alike — is retried up to the
fixed budget of 3 attempts with linearly increasing backoff (2 s after the
first failure, 4 s after the second); an error surfaces only once the budget
is exhausted. -/
theorem generate_response_retry_policy (out : Nat → AttemptOutcome) (c : String) :
    (attemptFails (out 0) = true → out 1 = .success c →
      generate_response out = (.ok c, [2])) ∧
    (attemptFails (out 0) = true → attemptFails (out 1) = true →
      out 2 = .success c → generate_response out = (.ok c, [2, 4])) ∧
    (attemptFails (out 0) = true → attemptFails (out 1) = true →
      attemptFails (out 2) = true →
      ∃ e, generate_response out = (.err e, [2, 4])) := by
  refine ⟨fun h0 h1 => ?_, fun h0 h1 h2 => ?_, fun h0 h1 h2 => ?_⟩
  · cases o0 : out 0 <;> rw [o0] at h0 <;> simp [attemptFails] at h0 <;>
      simp [generate_response, genAux, o0, h1]
  · cases o0 : out 0 <;> rw [o0] at h0 <;> simp [attemptFails] at h0 <;>
      cases o1 : out 1 <;> rw [o1] at h1 <;> simp [attemptFails] at h1 <;>
      simp [generate_response, genAux, o0, o1, h2]
  · cases o0 : out 0 <;> rw [o0] at h0 <;> simp [attemptFails] at h0 <;>
      cases o1 : out 1 <;> rw [o1] at h1 <;> simp [attemptFails] at h1 <;>
      cases o2 : out 2 <;> rw [o2] at h2 <;> simp [attemptFails] at h2 <;>
      simp [generate_response, genAux, o0, o1, o2]

/-- Witness for `generate_response_retry_policy`: a timeout then a 429 then a
success, and a run of three 500s. -/
theorem generate_response_retry_policy_witness :
    (generate_response
      (fun k => if k = 0 then .timeout else if k = 1 then .httpError 429
                else .success "out") = (.ok "out", [2, 4])) ∧
    (∃ e, generate_response (fun _ => .httpError 500) = (.err e, [2, 4])) :=
  ⟨(generate_response_retry_policy
      (fun k => if k = 0 then .timeout else if k = 1 then .httpError 429
                else .success "out") "out").2.1 (by decide) (by decide) (by decide),
   (generate_response_retry_policy (fun _ => .httpError 500) "out").2.2
      (by decide) (by decide) (by decide)⟩

/-! ## C8 — comparison output normalization -/

/-- C8 counterexample: when the first `key_differences` entry is a plain
string, the list is left entirely unchanged — a later object entry with a
`"difference"` field is *not* normalized to that field's value. -/
theorem key_differences_mixed_list_not_normalized :
    normalizeKeyDifferences [.str "Y", .obj [("difference", "X")]] =
      [.str "Y", .obj [("difference", "X")]] ∧
    normalizeKeyDifferences [.str "Y", .obj [("difference", "X")]] ≠
      [.str "Y", .str "X"] := by
  decide

/-- C8 amended: normalization of `key_differences` (and of the quote lists in
`pros_cons` / `feature_comparison`) fires only when the list is non-empty and
its *first* entry is an object; it then maps every entry — an object with a
`"difference"` (resp. `"quote"`) field to that field's value, an object
without one to its Python string form, and a plain string to itself.  A list
whose first entry is a plain string is returned unchanged even if later
entries are objects. -/
theorem comparison_normalization_gated (entries rest : List JEntry)
    (f : List (String × String)) (s : String) :
    (entries = .obj f :: rest →
      normalizeKeyDifferences entries = entries.map normalizeDiffEntry ∧
      normalizeQuoteList entries = entries.map normalizeQuoteEntry) ∧
    (entries = .str s :: rest →
      normalizeKeyDifferences entries = entries ∧
      normalizeQuoteList entries = entries) ∧
    (∀ fields d, getField fields "difference" = some d →
      normalizeDiffEntry (.obj fields) = .str d) ∧
    (∀ fields, getField fields "difference" = none →
      normalizeDiffEntry (.obj fields) = .str (pyReprObj fields)) ∧
    (normalizeDiffEntry (.str s) = .str s) ∧
    (∀ fields q, getField fields "quote" = some q →
      normalizeQuoteEntry (.obj fields) = .str q) ∧
    (∀ fields, getField fields "quote" = none →
      normalizeQuoteEntry (.obj fields) = .str (pyReprObj fields)) ∧
    (normalizeQuoteEntry (.str s) = .str s) := by
  refine ⟨fun he => ?_, fun he => ?_, fun fields d hd => ?_, fun fields hd => ?_,
    rfl, fun fields q hq => ?_, fun fields hq => ?_, rfl⟩
  · subst he
    exact ⟨rfl, rfl⟩
  · subst he
    exact ⟨rfl, rfl⟩
  · simp [normalizeDiffEntry, hd]
  · simp [normalizeDiffEntry, hd]
  · simp [normalizeQuoteEntry, hq]
  · simp [normalizeQuoteEntry, hq]

/-- Witness for `comparison_normalization_gated` on concrete lists. -/
theorem comparison_normalization_gated_witness :
    (normalizeKeyDifferences [.obj [("difference", "X")], .str "Y", .obj [("z", "w")]] =
      [.str "X", .str "Y", .str "\x7b\x27z\x27: \x27w\x27\x7d"]) ∧
    (normalizeKeyDifferences [.str "Y"] = [.str "Y"]) ∧
    (normalizeQuoteList [.obj [("quote", "Q")], .str "R"] = [.str "Q", .str "R"]) := by
  have h1 := (comparison_normalization_gated
    [.obj [("difference", "X")], .str "Y", .obj [("z", "w")]]
    [.str "Y", .obj [("z", "w")]] [("difference", "X")] "Y").1 rfl
  have h2 := (comparison_normalization_gated [.str "Y"] [] [] "Y").2.1 rfl
  have h3 := (comparison_normalization_gated [.obj [("quote", "Q")], .str "R"]
    [.str "R"] [("quote", "Q")] "R").1 rfl
  exact ⟨by rw [h1.1]; decide, h2.1, by rw [h3.2]; decide⟩

/-! ## C6 — extractor result classification -/

/-- The failure classification `scrape_url` actually implements, stated over
the provider call's outcome: a network error or timeout, a non-200 HTTP
status, or a provider-reported failure flag. -/
def scrapeCallFails (resp : FirecrawlResponse) : Bool :=
  match resp with
  | .netTimeout => true
  | .netError _ => true
  | .http status body => status != 200 || !body.success

/-- C6 counterexample: an HTTP 200 response with a true success flag but no
markdown payload yields `success = true` with empty content and no error —
not the `success = false` with a captured error string that the claim
requires for an absent markdown payload. -/
theorem scrape_url_absent_markdown_is_success :
    (scrape_url "https://example.com/page"
      (.http 200 ⟨true, none, none, none, []⟩)).success = true ∧
    (scrape_url "https://example.com/page"
      (.http 200 ⟨true, none, none, none, []⟩)).content = "" ∧
    (scrape_url "https://example.com/page"
      (.http 200 ⟨true, none, none, none, []⟩)).error = none := by
  refine ⟨rfl, rfl, rfl⟩

/-- C6 amended: `scrape_url` returns `success = false` with a captured error
string and empty content exactly when the provider call fails at the network
level, returns a non-200 HTTP status, or reports a failure flag; an absent
markdown payload on an otherwise successful response yields `success = true`
with *empty* content.  The `domain` and `platform` fields are computed from
the URL alone in every case. -/
theorem scrape_url_classification (url : String) (resp : FirecrawlResponse) :
    ((scrape_url url resp).success = false ↔ scrapeCallFails resp = true) ∧
    (scrapeCallFails resp = true →
      (scrape_url url resp).content = "" ∧ (scrape_url url resp).error.isSome = true) ∧
    (∀ status body, resp = .http status body → scrapeCallFails resp = false →
      (scrape_url url resp).success = true ∧
      (scrape_url url resp).error = none ∧
      (scrape_url url resp).content =
        (match body.dataMarkdown with
         | some m => m
         | none => body.topMarkdown.getD "")) ∧
    ((scrape_url url resp).domain = extract_domain url) ∧
    ((scrape_url url resp).platform = extract_platform_name url) := by
  rcases resp with _ | msg | ⟨status, body⟩
  · exact ⟨by simp [scrape_url, scrapeCallFails], fun _ => ⟨rfl, rfl⟩,
      fun _ _ h => absurd h (by simp), rfl, rfl⟩
  · exact ⟨by simp [scrape_url, scrapeCallFails], fun _ => ⟨rfl, rfl⟩,
      fun _ _ h => absurd h (by simp), rfl, rfl⟩
  · by_cases h200 : status = 200
    · subst h200
      by_cases hs : body.success
      · refine ⟨by simp [scrape_url, scrapeCallFails, hs], ?_,
          fun st bd h hf => ?_, ?_, ?_⟩
        · intro hf
          simp [scrapeCallFails, hs] at hf
        · cases h
          refine ⟨by simp [scrape_url, hs], by simp [scrape_url, hs],
            by simp [scrape_url, hs]⟩
        · simp [scrape_url, hs]
        · simp [scrape_url, hs]
      · rw [Bool.not_eq_true] at hs
        refine ⟨by simp [scrape_url, scrapeCallFails, hs], fun _ => ?_,
          fun st bd h hf => ?_, ?_, ?_⟩
        · exact ⟨by simp [scrape_url, hs], by simp [scrape_url, hs]⟩
        · cases h
          simp [scrapeCallFails, hs] at hf
        · simp [scrape_url, hs]
        · simp [scrape_url, hs]
    · refine ⟨by simp [scrape_url, scrapeCallFails, h200], fun _ => ?_,
        fun st bd h hf => ?_, ?_, ?_⟩
      · exact ⟨by simp [scrape_url, h200], by simp [scrape_url, h200]⟩
      · cases h
        simp [scrapeCallFails, h200] at hf
      · simp [scrape_url, h200]
      · simp [scrape_url, h200]

/-- Witness for `scrape_url_classification`: a 404 response and a successful
markdown response for a URL on a known platform. -/
theorem scrape_url_classification_witness :
    ((scrape_url "https://www.amazon.in/dp/x"
        (.http 404 ⟨true, none, none, none, []⟩)).success = false) ∧
    ((scrape_url "https://www.amazon.in/dp/x"
        (.http 200 ⟨true, none, some "body", none, []⟩)).content = "body") ∧
    ((scrape_url "https://www.amazon.in/dp/x"
        (.http 404 ⟨true, none, none, none, []⟩)).platform = "amazon") := by
  refine ⟨?_, ?_, ?_⟩
  · exact (scrape_url_classification "https://www.amazon.in/dp/x"
      (.http 404 ⟨true, none, none, none, []⟩)).1.mpr (by decide)
  · exact ((scrape_url_classification "https://www.amazon.in/dp/x"
      (.http 200 ⟨true, none, some "body", none, []⟩)).2.2.1
      200 ⟨true, none, some "body", none, []⟩ rfl (by decide)).2.2
  · rw [(scrape_url_classification "https://www.amazon.in/dp/x"
      (.http 404 ⟨true, none, none, none, []⟩)).2.2.2.2]
    decide

/-! ## C2 — analysis upsert semantics -/

theorem getField_setField_self (doc : AnalysisDoc) (k v : String) :
    getField (setField doc k v) k = some v := by
  induction doc with
  | nil => simp [setField, getField]
  | cons kv rest ih =>
    by_cases h : kv.1 = k
    · simp [setField, getField, h]
    · simp [setField, getField, h, ih]

theorem getField_setField_ne (doc : AnalysisDoc) (k k' v : String) (h : k ≠ k') :
    getField (setField doc k v) k' = getField doc k' := by
  induction doc with
  | nil => simp [setField, getField, h]
  | cons kv rest ih =>
    by_cases hk : kv.1 = k
    · simp [setField, getField, hk, h]
    · simp [setField, getField, hk, ih]

theorem getField_none_of_not_mem (doc : AnalysisDoc) (k : String)
    (h : k ∉ doc.map Prod.fst) : getField doc k = none := by
  induction doc with
  | nil => rfl
  | cons kv rest ih =>
    obtain ⟨k1, v1⟩ := kv
    simp only [List.map_cons, List.mem_cons] at h
    push_neg at h
    show (if k1 = k then some v1 else getField rest k) = none
    rw [if_neg (Ne.symm h.1)]
    exact ih h.2

theorem getField_mergeFields_of_none (payload : AnalysisDoc) (k : String) :
    ∀ existing, getField payload k = none →
      getField (mergeFields existing payload) k = getField existing k := by
  induction payload with
  | nil => intro existing _; rfl
  | cons kv rest ih =>
    intro existing h
    simp only [getField] at h
    by_cases hk : kv.1 = k
    · simp [hk] at h
    · rw [if_neg hk] at h
      show getField (mergeFields (setField existing kv.1 kv.2) rest) k = _
      rw [ih (setField existing kv.1 kv.2) h, getField_setField_ne _ _ _ _ hk]

theorem getField_mergeFields_of_some (payload : AnalysisDoc) (k v : String) :
    ∀ existing, (payload.map Prod.fst).Nodup → getField payload k = some v →
      getField (mergeFields existing payload) k = some v := by
  induction payload with
  | nil => intro existing _ h; cases h
  | cons kv rest ih =>
    intro existing hnd h
    simp only [List.map_cons, List.nodup_cons] at hnd
    simp only [getField] at h
    by_cases hk : kv.1 = k
    · rw [if_pos hk] at h
      cases h
      subst hk
      show getField (mergeFields (setField existing kv.1 kv.2) rest) kv.1 = some kv.2
      rw [getField_mergeFields_of_none rest kv.1 (setField existing kv.1 kv.2)
            (getField_none_of_not_mem rest kv.1 hnd.1)]
      exact getField_setField_self existing kv.1 kv.2
    · rw [if_neg hk] at h
      exact ih (setField existing kv.1 kv.2) hnd.2 h

/-- C2 counterexample: upserting the payload `{"b": "2"}` over a stored
AnalysisResult `{"a": "1"}` keeps the old field `"a"` — the stored record
after the call is not "exactly the fields of the new payload". -/
theorem save_analysis_results_keeps_old_fields :
    ((save_analysis_results ⟨"processing", some [("a", "1")], [], []⟩
        [("b", "2")]).analysis = some [("a", "1"), ("b", "2")]) ∧
    (getField (((save_analysis_results ⟨"processing", some [("a", "1")], [], []⟩
        [("b", "2")]).analysis).getD []) "a" = some "1") := by
  decide

/-- C2 amended: `save_analysis_results` has field-wise merge semantics keyed by
product id: after the call the stored AnalysisResult carries every field of
the new payload with its new value, while fields of the previously stored
record that are absent from the payload survive with their old values; when no
record existed the payload itself is stored; and as a side effect the owning
Product's status is set to `"completed"`. -/
theorem save_analysis_results_merge_semantics (s : PState) (payload : AnalysisDoc)
    (hnd : (payload.map Prod.fst).Nodup) :
    ((save_analysis_results s payload).status = "completed") ∧
    (s.analysis = none → (save_analysis_results s payload).analysis = some payload) ∧
    (∀ existing, s.analysis = some existing →
      (save_analysis_results s payload).analysis = some (mergeFields existing payload) ∧
      (∀ k v, getField payload k = some v →
        getField (mergeFields existing payload) k = some v) ∧
      (∀ k, getField payload k = none →
        getField (mergeFields existing payload) k = getField existing k)) := by
  refine ⟨sar_status s payload, fun h => ?_, fun existing h => ⟨?_, ?_, ?_⟩⟩
  · rw [sar_analysis, h]
  · rw [sar_analysis, h]
  · intro k v hk
    exact getField_mergeFields_of_some payload k v existing hnd hk
  · intro k hk
    exact getField_mergeFields_of_none payload k existing hk

/-- Witness for `save_analysis_results_merge_semantics` at a concrete store
state and payload. -/
theorem save_analysis_results_merge_semantics_witness :
    ((save_analysis_results ⟨"processing", some [("a", "1"), ("b", "0")], [], []⟩
        [("b", "2")]).status = "completed") ∧
    (getField (mergeFields [("a", "1"), ("b", "0")] [("b", "2")]) "b" = some "2") ∧
    (getField (mergeFields [("a", "1"), ("b", "0")] [("b", "2")]) "a" =
      getField [("a", "1"), ("b", "0")] "a") := by
  have h := save_analysis_results_merge_semantics
    ⟨"processing", some [("a", "1"), ("b", "0")], [], []⟩ [("b", "2")] (by decide)
  exact ⟨h.1, (h.2.2 [("a", "1"), ("b", "0")] rfl).2.1 "b" "2" (by decide),
    (h.2.2 [("a", "1"), ("b", "0")] rfl).2.2 "a" (by decide)⟩

/-! ## Pipeline loop lemmas -/

theorem scrapeStep_status (n i : Nat) (s : PState) :
    (scrapeStepState n i s).status = s.status :=
  ups_status_in_progress s "scrape" _ _ none

theorem scrapeStep_analysis (n i : Nat) (s : PState) :
    (scrapeStepState n i s).analysis = s.analysis :=
  ups_analysis s "scrape" "in_progress" _ _ none

theorem scrapeStep_rawReviews (n i : Nat) (s : PState) :
    (scrapeStepState n i s).rawReviews = s.rawReviews :=
  ups_rawReviews s "scrape" "in_progress" _ _ none

theorem analyzeStep_analysis (n i count : Nat) (s : PState) :
    (analyzeStepState n i count s).analysis = s.analysis :=
  ups_analysis s "analyze" "in_progress" _ _ none

theorem analyzeStep_rawReviews (n i count : Nat) (s : PState) :
    (analyzeStepState n i count s).rawReviews = s.rawReviews :=
  ups_rawReviews s "analyze" "in_progress" _ _ none

theorem processUrl_fail (env : PipelineEnv) (n i : Nat) (url : String)
    (s : PState) (acc : List String) (succ fails : Nat)
    (h : (env.scrape url).success = false ∨ (env.scrape url).content = "") :
    processUrl env n i url s acc succ fails =
      .ok (scrapeStepState n i s, acc, succ, fails + 1) := by
  unfold processUrl
  rw [if_neg]
  rintro ⟨h1, h2⟩
  rcases h with h | h
  · rw [h] at h1
    exact Bool.noConfusion h1
  · exact h2 h

theorem processUrl_success (env : PipelineEnv) (n i : Nat) (url : String)
    (s : PState) (acc : List String) (succ fails : Nat) (payload : AnalysisDoc)
    (h1 : (env.scrape url).success = true) (h2 : (env.scrape url).content ≠ "")
    (hana : env.analyze (acc ++ [(env.scrape url).content]) = .ok payload) :
    processUrl env n i url s acc succ fails =
      .ok (save_analysis_results
            (analyzeStepState n i (acc ++ [(env.scrape url).content]).length
              (save_raw_reviews (scrapeStepState n i s) [env.scrape url]))
            payload,
          acc ++ [(env.scrape url).content], succ + 1, fails) := by
  unfold processUrl
  rw [if_pos ⟨h1, h2⟩, hana]

/-- Fields of the state produced by a successful iteration. -/
theorem processUrl_success_state (env : PipelineEnv) (n i : Nat) (url : String)
    (s : PState) (acc : List String) (payload : AnalysisDoc)
    (h1 : (env.scrape url).success = true) (h2 : (env.scrape url).content ≠ "") :
    (save_analysis_results
      (analyzeStepState n i (acc ++ [(env.scrape url).content]).length
        (save_raw_reviews (scrapeStepState n i s) [env.scrape url]))
      payload).status = "completed" ∧
    (save_analysis_results
      (analyzeStepState n i (acc ++ [(env.scrape url).content]).length
        (save_raw_reviews (scrapeStepState n i s) [env.scrape url]))
      payload).analysis = some (match s.analysis with
        | some existing => mergeFields existing payload
        | none => payload) ∧
    (save_analysis_results
      (analyzeStepState n i (acc ++ [(env.scrape url).content]).length
        (save_raw_reviews (scrapeStepState n i s) [env.scrape url]))
      payload).rawReviews = s.rawReviews ++
        [{ source_url := (env.scrape url).url,
           source_platform := (env.scrape url).platform,
           raw_data := (env.scrape url).content,
           firecrawl_metadata := (env.scrape url).metadata,
           domain := (env.scrape url).domain }] := by
  refine ⟨sar_status _ payload, ?_, ?_⟩
  · rw [sar_analysis, analyzeStep_analysis, srr_analysis, scrapeStep_analysis]
  · rw [sar_rawReviews, analyzeStep_rawReviews]
    show (save_raw_reviews _ [env.scrape url]).rawReviews = _
    rw [save_raw_reviews]
    simp only [List.filterMap_cons, List.filterMap_nil, if_pos (And.intro h1 h2)]
    rw [scrapeStep_rawReviews]

theorem runLoop_two (env : PipelineEnv) (n : Nat) (u1 u2 : String) (s : PState)
    (payload : AnalysisDoc)
    (hfail : (env.scrape u1).success = false ∨ (env.scrape u1).content = "")
    (hsucc : (env.scrape u2).success = true) (h2ne : (env.scrape u2).content ≠ "")
    (hana : env.analyze [(env.scrape u2).content] = .ok payload) :
    ∃ s', runLoop env n [u1, u2] 0 s [] 0 0 =
        .ok (s', [(env.scrape u2).content], 1, 1) ∧
      s'.status = "completed" ∧
      s'.analysis = some (match s.analysis with
        | some existing => mergeFields existing payload
        | none => payload) ∧
      s'.rawReviews = s.rawReviews ++
        [{ source_url := (env.scrape u2).url,
           source_platform := (env.scrape u2).platform,
           raw_data := (env.scrape u2).content,
           firecrawl_metadata := (env.scrape u2).metadata,
           domain := (env.scrape u2).domain }] := by
  have e1 := processUrl_fail env n 0 u1 s [] 0 0 hfail
  have e2 := processUrl_success env n 1 u2 (scrapeStepState n 0 s) [] 0 1 payload
    hsucc h2ne (by simpa using hana)
  obtain ⟨hst, han, hrr⟩ := processUrl_success_state env n 1 u2 (scrapeStepState n 0 s)
    [] payload hsucc h2ne
  rw [scrapeStep_analysis] at han
  rw [scrapeStep_rawReviews] at hrr
  refine ⟨_, ?_, hst, han, hrr⟩
  show (match processUrl env n 0 u1 s [] 0 0 with
        | Except.error e => Except.error e
        | Except.ok (s', acc', succ', fails') => runLoop env n [u2] 1 s' acc' succ' fails') = _
  rw [e1]
  show (match processUrl env n 1 u2 (scrapeStepState n 0 s) [] 0 1 with
        | Except.error e => Except.error e
        | Except.ok (s', acc', succ', fails') => runLoop env n [] 2 s' acc' succ' fails') = _
  rw [e2]
  show Except.ok (_, [] ++ [(env.scrape u2).content], 1, 1) = _
  rw [List.nil_append]

theorem runLoop_all_fail (env : PipelineEnv) (n : Nat) (urls : List String) :
    ∀ (i : Nat) (s : PState) (acc : List String) (succ fails : Nat),
      (∀ u ∈ urls, (env.scrape u).success = false ∨ (env.scrape u).content = "") →
      ∃ s' fails', runLoop env n urls i s acc succ fails = .ok (s', acc, succ, fails') ∧
        s'.status = s.status ∧ s'.analysis = s.analysis ∧ s'.rawReviews = s.rawReviews := by
  induction urls with
  | nil => exact fun i s acc succ fails _ => ⟨s, fails, rfl, rfl, rfl, rfl⟩
  | cons u rest ih =>
    intro i s acc succ fails h
    have e1 := processUrl_fail env n i u s acc succ fails (h u (List.mem_cons_self u rest))
    obtain ⟨s', fails', heq, h1, h2, h3⟩ := ih (i + 1) (scrapeStepState n i s)
      acc succ (fails + 1) (fun v hv => h v (List.mem_cons_of_mem u hv))
    refine ⟨s', fails', ?_, ?_, ?_, ?_⟩
    · show (match processUrl env n i u s acc succ fails with
            | Except.error e => Except.error e
            | Except.ok (s', acc', succ', fails') =>
                runLoop env n rest (i + 1) s' acc' succ' fails') = _
      rw [e1]
      exact heq
    · exact h1.trans (scrapeStep_status n i s)
    · exact h2.trans (scrapeStep_analysis n i s)
    · exact h3.trans (scrapeStep_rawReviews n i s)

theorem searchStep_analysis (name : String) (s : PState) :
    (searchStepState name s).analysis = s.analysis :=
  ups_analysis s "search" "in_progress" 10 _ none

theorem searchStep_rawReviews (name : String) (s : PState) :
    (searchStepState name s).rawReviews = s.rawReviews :=
  ups_rawReviews s "search" "in_progress" 10 _ none

theorem foundUrls_analysis (k : Nat) (s : PState) :
    (foundUrlsState k s).analysis = s.analysis :=
  ups_analysis s "scrape" "in_progress" 20 _ none

theorem foundUrls_rawReviews (k : Nat) (s : PState) :
    (foundUrlsState k s).rawReviews = s.rawReviews :=
  ups_rawReviews s "scrape" "in_progress" 20 _ none

theorem getLast?_append_singleton {α : Type} (l : List α) (a : α) :
    (l ++ [a]).getLast? = some a := by
  induction l with
  | nil => rfl
  | cons x rest ih =>
    rw [List.cons_append]
    cases hrest : rest ++ [a] with
    | nil => simp at hrest
    | cons y ys =>
      rw [List.getLast?_cons_cons, ← hrest, ih]

/-! ## C1 — first URL fails, second succeeds -/

/-- C1 amended: in a run over two discovered URLs where the first URL's
extraction returns a failure result (or empty content) and the second
succeeds with non-empty content `c`, and the analyzer returns a payload for
`[c]`, the run ends with terminal status `"completed"`, the stored
AnalysisResult is exactly the analyzer's output over `[c]` (the failed URL
contributes nothing), and exactly one raw-review row is persisted.
Extractor-level exceptions never reach the loop (`scrape_url` converts them
into failure results), but an Analyzer exception aborts the loop and fails the
whole run — it is caught only by the run-level handler (see the
counterexample). -/
theorem pipeline_url1_fails_url2_succeeds (env : PipelineEnv)
    (name u1 u2 c : String) (payload : AnalysisDoc) (s0 : PState)
    (hsearch : env.search = .ok [u1, u2])
    (hfail : (env.scrape u1).success = false ∨ (env.scrape u1).content = "")
    (hsucc : (env.scrape u2).success = true)
    (hc : (env.scrape u2).content = c) (hcne : c ≠ "")
    (hana : env.analyze [c] = .ok payload)
    (hA : s0.analysis = none) (hR : s0.rawReviews = []) :
    (analyze_product_pipeline env name s0).status = "completed" ∧
    (analyze_product_pipeline env name s0).analysis = some payload ∧
    (analyze_product_pipeline env name s0).rawReviews.map RawReviewRow.raw_data
      = [c] := by
  have h2ne : (env.scrape u2).content ≠ "" := by rw [hc]; exact hcne
  have hana' : env.analyze [(env.scrape u2).content] = .ok payload := by
    rw [hc]; exact hana
  obtain ⟨s', hl, hst, han, hrr⟩ := runLoop_two env ([u1, u2].length) u1 u2
    (foundUrlsState ([u1, u2].length) (searchStepState name s0)) payload
    hfail hsucc h2ne hana'
  have hpipe : analyze_product_pipeline env name s0 =
      update_processing_status s' "analyze" "completed" 100
        "Analysis complete!" none := by
    simp only [analyze_product_pipeline, hsearch]
    rw [if_neg (by simp), hl]
    rfl
  rw [foundUrls_analysis, searchStep_analysis, hA] at han
  rw [foundUrls_rawReviews, searchStep_rawReviews, hR] at hrr
  refine ⟨?_, ?_, ?_⟩ <;> rw [hpipe]
  · exact ups_status_completed s' "analyze" 100 _ none
  · rw [ups_analysis]
    exact han.trans rfl
  · rw [ups_rawReviews, hrr]
    simp [hc]

/-- Concrete pipeline environment: two URLs, the first failing and the second
succeeding; the analyzer records the first review text it receives. -/
def envUrl1Fails : PipelineEnv where
  search := .ok ["u1", "u2"]
  scrape := fun u =>
    if u = "u2" then ⟨"u2", true, none, "c2", "example.com", "example", []⟩
    else ⟨"u1", false, some "HTTP 500: boom", "", "example.com", "example", []⟩
  analyze := fun revs => .ok [("reviews", revs.headD "")]

/-- Witness for `pipeline_url1_fails_url2_succeeds` on `envUrl1Fails`. -/
theorem pipeline_url1_fails_url2_succeeds_witness :
    (analyze_product_pipeline envUrl1Fails "p" ⟨"processing", none, [], []⟩).status
        = "completed" ∧
    (analyze_product_pipeline envUrl1Fails "p" ⟨"processing", none, [], []⟩).analysis
        = some [("reviews", "c2")] ∧
    (analyze_product_pipeline envUrl1Fails "p"
        ⟨"processing", none, [], []⟩).rawReviews.map RawReviewRow.raw_data
      = ["c2"] :=
  pipeline_url1_fails_url2_succeeds envUrl1Fails "p" "u1" "u2" "c2"
    [("reviews", "c2")] ⟨"processing", none, [], []⟩ rfl (Or.inl (by decide))
    (by decide) (by decide) (by decide) rfl rfl rfl

/-- Concrete pipeline environment in which both URLs scrape successfully but
the analyzer raises on its first call. -/
def envAnalyzerRaises : PipelineEnv where
  search := .ok ["u1", "u2"]
  scrape := fun u =>
    if u = "u2" then ⟨"u2", true, none, "c2", "example.com", "example", []⟩
    else ⟨"u1", true, none, "c1", "example.com", "example", []⟩
  analyze := fun _ => .error "parse failure"

/-- C1 counterexample: an Analyzer exception during the first URL's iteration
aborts the loop — the second URL is never scraped (only the first URL's
raw-review row exists), the run's terminal status is `"failed"` and the last
progress row is the run-level handler's `stage="analyze", status="failed"`
event — contradicting the claim that per-URL Analyzer exceptions are counted
as a failed URL and processing continues with the next URL. -/
theorem pipeline_analyzer_exception_aborts_loop :
    (analyze_product_pipeline envAnalyzerRaises "p"
        ⟨"processing", none, [], []⟩).status = "failed" ∧
    (analyze_product_pipeline envAnalyzerRaises "p"
        ⟨"processing", none, [], []⟩).rawReviews.map RawReviewRow.raw_data
      = ["c1"] ∧
    (analyze_product_pipeline envAnalyzerRaises "p"
        ⟨"processing", none, [], []⟩).analysis = none ∧
    (analyze_product_pipeline envAnalyzerRaises "p"
        ⟨"processing", none, [], []⟩).logs.getLast? =
      some { stage := "analyze", status := "failed", progress := 0,
             current_step := "Error: parse failure",
             error := some "parse failure" } := by
  decide

/-! ## C4 — every URL fails extraction -/

/-- C4: when discovery returns a non-empty URL list and every URL's extraction
fails or yields empty content, the run ends in the terminal failed state: the
final progress row is `stage="scrape", status="failed", progress=0` with the
error `"Failed to extract review content from scraped pages"`, the product's
status is `"failed"`, and no AnalysisResult exists (when none existed
before). -/
theorem pipeline_all_urls_fail (env : PipelineEnv) (name : String) (s0 : PState)
    (urls : List String)
    (hsearch : env.search = .ok urls) (hne : urls ≠ [])
    (hfail : ∀ u ∈ urls,
      (env.scrape u).success = false ∨ (env.scrape u).content = "")
    (hA : s0.analysis = none) :
    (analyze_product_pipeline env name s0).status = "failed" ∧
    (analyze_product_pipeline env name s0).analysis = none ∧
    (analyze_product_pipeline env name s0).logs.getLast? =
      some { stage := "scrape", status := "failed", progress := 0,
             current_step := "No review content extracted",
             error := some "Failed to extract review content from scraped pages" } := by
  obtain ⟨s', fails', hl, h1, h2, h3⟩ := runLoop_all_fail env urls.length urls 0
    (foundUrlsState urls.length (searchStepState name s0)) [] 0 0 hfail
  have hpipe : analyze_product_pipeline env name s0 =
      update_processing_status s' "scrape" "failed" 0
        "No review content extracted"
        (some "Failed to extract review content from scraped pages") := by
    simp only [analyze_product_pipeline, hsearch]
    rw [if_neg (by simp only [List.isEmpty_iff]; exact hne), hl]
    rfl
  refine ⟨?_, ?_, ?_⟩ <;> rw [hpipe]
  · exact ups_status_failed s' "scrape" 0 _ _
  · rw [ups_analysis, h2, foundUrls_analysis, searchStep_analysis, hA]
  · rw [ups_logs]
    exact getLast?_append_singleton _ _

/-- Concrete pipeline environment whose only URL fails extraction. -/
def envAllFail : PipelineEnv where
  search := .ok ["u1"]
  scrape := fun u => ⟨u, false, some "Timeout", "", "example.com", "example", []⟩
  analyze := fun _ => .error "never called"

/-- Witness for `pipeline_all_urls_fail` on `envAllFail`. -/
theorem pipeline_all_urls_fail_witness :
    (analyze_product_pipeline envAllFail "p" ⟨"processing", none, [], []⟩).status
        = "failed" ∧
    (analyze_product_pipeline envAllFail "p" ⟨"processing", none, [], []⟩).analysis
        = none ∧
    (analyze_product_pipeline envAllFail "p" ⟨"processing", none, [], []⟩).logs.getLast?
      = some { stage := "scrape", status := "failed", progress := 0,
               current_step := "No review content extracted",
               error := some "Failed to extract review content from scraped pages" } :=
  pipeline_all_urls_fail envAllFail "p" ⟨"processing", none, [], []⟩ ["u1"] rfl
    (by decide) (fun u _ => Or.inl rfl) rfl

/-! ## C9 — save sets status to completed mid-run -/

/-- C9: every `save_analysis_results` call sets the product's status to
`"completed"`, including the save after the first successful URL of a run over
`n = 2` URLs: the state reached after iteration `i = 0` already has status
`"completed"`, and the analyze trigger applied to that mid-run state reports
`"completed"` and schedules no new pipeline run, even though the second URL
has not been processed. -/
theorem save_completes_status_midrun (env : PipelineEnv) (u c : String)
    (payload : AnalysisDoc) (s : PState)
    (h1 : (env.scrape u).success = true)
    (hc : (env.scrape u).content = c) (hcne : c ≠ "")
    (hana : env.analyze [c] = .ok payload) :
    (∀ t q, (save_analysis_results t q).status = "completed") ∧
    ∃ s', processUrl env 2 0 u s [] 0 0 = .ok (s', [c], 1, 0) ∧
      s'.status = "completed" ∧
      analyze_product s' = (("completed", "Analysis already completed"), s', false) := by
  have h2ne : (env.scrape u).content ≠ "" := by rw [hc]; exact hcne
  have hana' : env.analyze ([] ++ [(env.scrape u).content]) = .ok payload := by
    simpa [hc] using hana
  have e2 := processUrl_success env 2 0 u s [] 0 0 payload h1 h2ne hana'
  obtain ⟨hst, -, -⟩ := processUrl_success_state env 2 0 u s [] payload h1 h2ne
  refine ⟨fun t q => sar_status t q,
    save_analysis_results
      (analyzeStepState 2 0 (([] : List String) ++ [(env.scrape u).content]).length
        (save_raw_reviews (scrapeStepState 2 0 s) [env.scrape u]))
      payload, ?_, hst, ?_⟩
  · rw [e2]
    simp [hc]
  · unfold analyze_product
    rw [if_neg (by rw [hst]; decide), if_pos hst]

/-- Concrete environment for `save_completes_status_midrun`. -/
def envMidRun : PipelineEnv where
  search := .ok ["u1", "u2"]
  scrape := fun u => ⟨u, true, none, "c1", "example.com", "example", []⟩
  analyze := fun revs => .ok [("reviews", revs.headD "")]

/-- Witness for `save_completes_status_midrun` on `envMidRun`. -/
theorem save_completes_status_midrun_witness :
    (save_analysis_results ⟨"processing", none, [], []⟩ [("a", "1")]).status
      = "completed" ∧
    ∃ s', processUrl envMidRun 2 0 "u1" ⟨"processing", none, [], []⟩ [] 0 0 =
        .ok (s', ["c1"], 1, 0) ∧
      s'.status = "completed" ∧
      analyze_product s' = (("completed", "Analysis already completed"), s', false) := by
  have h := save_completes_status_midrun envMidRun "u1" "c1"
    [("reviews", "c1")] ⟨"processing", none, [], []⟩ (by decide) (by decide)
    (by decide) rfl
  exact ⟨h.1 ⟨"processing", none, [], []⟩ [("a", "1")], h.2⟩

end ProductAnalysis
